import Mathlib

/- Shallow embedding of FTL's dnsmasq config writer (src/config/dnsmasq_config.c).
   Pure C string manipulation is modelled over `List Char`; the line-oriented
   config writer is modelled as a function returning the list of emitted lines
   (each `fputs`/`fprintf` call contributes its literal text split at the
   newline characters it writes); the file-system and process effects are
   modelled by explicit state passing with an environment record carrying the
   outcomes of the fallible system calls. -/

/-- Boolean test that `p` is a prefix of `l`, written by recursion on chars
(the comparison `charsPrefixOf needle hay` mirrors C prefix scans). -/
def charsPrefixOf : List Char → List Char → Bool
  | [], _ => true
  | _ :: _, [] => false
  | a :: as, b :: bs => a == b && charsPrefixOf as bs

/-- Boolean equality of two char lists. -/
def charsEq : List Char → List Char → Bool
  | [], [] => true
  | a :: as, b :: bs => a == b && charsEq as bs
  | _, _ => false

/-- Whitespace classification of C's `isspace`: space, tab, newline, vertical
tab, form feed, carriage return. -/
def isWsChar (c : Char) : Bool :=
  c == ' ' || c == '\t' || c == '\n' || c == Char.ofNat 11 || c == Char.ofNat 12 || c == '\r'

/-- C's `strstr(hay, needle)` restricted to returning the suffix of `hay`
starting at the first occurrence of `needle`, or `none` when absent. -/
def strstr_suffix (needle : List Char) : List Char → Option (List Char)
  | [] => if charsPrefixOf needle [] then some [] else none
  | c :: rest =>
      if charsPrefixOf needle (c :: rest) then some (c :: rest)
      else strstr_suffix needle rest

/-- String-level wrapper for `strstr`: first-occurrence suffix of the haystack. -/
def strstr (hay : String) (needle : String) : Option (List Char) :=
  strstr_suffix needle.data hay.data

/-- One element of a cJSON array as the renderer observes it: either a JSON
string (with its `valuestring`) or any non-string item (including JSON null),
for which `cJSON_IsString` is false. -/
inductive CVal where
  | str (s : String)
  | notStr
  deriving DecidableEq, Repr

/-- True exactly on string-valued cJSON items. -/
def CVal.isStr : CVal → Bool
  | .str _ => true
  | .notStr => false

/-- Listening-mode enum of the configuration model (`conf->dnsmasq.listening_mode`). -/
inductive ListeningMode where
  | LISTEN_LOCAL
  | LISTEN_ALL
  | LISTEN_SINGLE
  | LISTEN_BIND
  deriving DecidableEq, Repr

/-- Fields of `conf->dnsmasq.rev_server` read by the renderer. -/
structure RevServerConf where
  active : Bool
  cidr : String
  target : String
  domain : String
  deriving DecidableEq, Repr

/-- Fields of `conf->dnsmasq.dhcp` read by the renderer. -/
structure DhcpConf where
  active : Bool
  start : String
  end_ : String
  leasetime : String
  router : String
  rapid_commit : Bool
  ipv6 : Bool
  hosts : List CVal
  deriving DecidableEq, Repr

/-- Fields of `conf->dnsmasq` read by the renderer. -/
structure DnsmasqConf where
  port : Nat
  upstreams : List CVal
  cache_size : Nat
  logging : Bool
  bogus_priv : Bool
  domain_needed : Bool
  expand_hosts : Bool
  dnssec : Bool
  domain : String
  host_record : String
  interface : String
  listening_mode : ListeningMode
  rev_server : RevServerConf
  dhcp : DhcpConf
  cnames : List CVal
  deriving DecidableEq, Repr

/-- Fields of `conf->files` read by the renderer (`conf->files.log.dnsmasq`). -/
structure FilesConf where
  log_dnsmasq : String
  deriving DecidableEq, Repr

/-- The slice of `struct config` that `write_dnsmasq_config` and the legacy
importers touch. -/
structure Config where
  dnsmasq : DnsmasqConf
  files : FilesConf
  deriving DecidableEq, Repr

/-- Case-insensitive string equality; `strcaseeq a b = true` models
`strcasecmp(a, b) == 0`. -/
def strcaseeq (a b : String) : Bool :=
  charsEq (a.data.map Char.toLower) (b.data.map Char.toLower)

/-- Modelled from the spec: fixed, well-known filesystem location of the
custom list included via `addn-hosts=` (the macro `DNSMASQ_CUSTOM_LIST` is
defined outside src/). -/
def DNSMASQ_CUSTOM_LIST : String := "/etc/pihole/custom.list"

/-- Header block of `write_config_header`: the banner comments, ending with
the timestamp line (built from three `fputs` without newlines in between)
and the closing rule followed by a blank line. -/
def write_config_header (timestring : String) : List String :=
  [ "# Pi-hole: A black hole for Internet advertisements",
    "# (c) 2023 Pi-hole, LLC (https://pi-hole.net)",
    "# Network-wide ad blocking via your own hardware.",
    "#",
    "# Dnsmasq config for Pi-hole's FTLDNS",
    "#",
    "# This file is copyright under the latest version of the EUPL.",
    "# Please see LICENSE file for your rights under this license.",
    "",
    "###############################################################################",
    "#                  FILE AUTOMATICALLY POPULATED BY PI-HOLE                    #",
    "#  ANY CHANGES MADE TO THIS FILE WILL BE LOST WHEN THE CONFIGURATION CHANGES  #",
    "#                                                                             #",
    "#        IF YOU WISH TO CHANGE THE UPSTREAM SERVERS, CHANGE THEM IN:          #",
    "#                      /etc/pihole/pihole-FTL.toml                            #",
    "#                         and restart pihole-FTL                              #",
    "#                                                                             #",
    "#                                                                             #",
    "#        ANY OTHER CHANGES SHOULD BE MADE IN A SEPARATE CONFIG FILE           #",
    "#                    WITHIN /etc/dnsmasq.d/yourname.conf                      #",
    "#                                                                             #",
    "#                      Last update: " ++ timestring ++ "                       #",
    "###############################################################################",
    "" ]

/-- Loop body shared by the three cJSON array loops of `write_dnsmasq_config`:
for each array item, emit one `<pre><valuestring>` line if the item is non-NULL
and a cJSON string (`cJSON_IsString`), otherwise emit nothing. -/
def cjson_directive_lines (pre : String) : List CVal → List String
  | [] => []
  | .str s :: rest => (pre ++ s) :: cjson_directive_lines pre rest
  | .notStr :: rest => cjson_directive_lines pre rest

/-- Upstream block: emitted only when `cJSON_GetArraySize` of the upstream
array is positive; one `server=` line per string item, then a blank line. -/
def upstream_section (upstreams : List CVal) : List String :=
  if upstreams.length > 0 then
    "# List of upstream DNS server" :: cjson_directive_lines "server=" upstreams ++ [""]
  else []

/-- Fixed lines between the header and the upstream block: the two
`addn-hosts=` inclusions, `no-resolv` and the `port=` directive. -/
def addn_hosts_port_lines (port : Nat) : List String :=
  [ "addn-hosts=/etc/pihole/local.list",
    "addn-hosts=" ++ DNSMASQ_CUSTOM_LIST,
    "",
    "# Don't read /etc/resolv.conf. Get upstream servers only from the configuration",
    "no-resolv",
    "",
    "# DNS port to be used",
    "port=" ++ toString port ]

/-- Cache-size block. -/
def cache_size_lines (cache_size : Nat) : List String :=
  [ "# Set the size of dnsmasq's cache. The default is 150 names. Setting the cache",
    "# size to zero disables caching. Note: huge cache size impacts performance",
    "cache-size=" ++ toString cache_size,
    "" ]

/-- Always-emitted `localise-queries` block. -/
def localise_queries_lines : List String :=
  [ "# Return answers to DNS queries from /etc/hosts and interface-name and",
    "# dynamic-host which depend on the interface over which the query was",
    "# received. If a name has more than one address associated with it, and",
    "# at least one of those addresses is on the same subnet as the interface",
    "# to which the query was sent, then return only the address(es) on that",
    "# subnet and return all the available addresses otherwise.",
    "localise-queries",
    "" ]

/-- Query-logging toggle: the enabling directives live, or the commented-out
variants when logging is disabled. -/
def logging_block (logging : Bool) : List String :=
  if logging then
    [ "# Enable query logging",
      "log-queries",
      "log-async" ]
  else
    [ "# Disable query logging",
      "#log-queries",
      "#log-async" ]

/-- Log-facility block, emitted only for a non-empty log file path. -/
def logfacility_section (log_dnsmasq : String) : List String :=
  if log_dnsmasq.length > 0 then
    [ "# Specify the log file to use",
      "# We set this even if logging is disabled to store warnings",
      "# and errors in this file. This is useful for debugging.",
      "log-facility=" ++ log_dnsmasq,
      "" ]
  else []

/-- Optional `bogus-priv` block. -/
def bogus_priv_section (bogus_priv : Bool) : List String :=
  if bogus_priv then
    [ "# Bogus private reverse lookups. All reverse lookups for private IP",
      "# ranges (ie 192.168.x.x, etc) which are not found in /etc/hosts or the",
      "# DHCP leases file are answered with NXDOMAIN rather than being forwarded",
      "bogus-priv",
      "" ]
  else []

/-- Optional `domain-needed` block. -/
def domain_needed_section (domain_needed : Bool) : List String :=
  if domain_needed then
    [ "# Add the domain to simple names (without a period) in /etc/hosts in",
      "# the same way as for DHCP-derived names",
      "domain-needed",
      "" ]
  else []

/-- Optional `expand-hosts` block. -/
def expand_hosts_section (expand_hosts : Bool) : List String :=
  if expand_hosts then
    [ "# Never forward A or AAAA queries for plain names, without dots or",
      "# domain parts, to upstream nameservers",
      "expand-hosts",
      "" ]
  else []

/-- Optional DNSSEC block with the pinned root zone trust anchor. -/
def dnssec_section (dnssec : Bool) : List String :=
  if dnssec then
    [ "# Use DNNSEC",
      "dnssec",
      "# 2017-02-02 root zone trust anchor",
      "trust-anchor=.,20326,8,2,E06D44B80B8F1D39A95C0B0D7C65D08458E880409BBC683457104237C7F8EC8D",
      "" ]
  else []

/-- Domain block: emitted for a non-empty domain other than (case-insensitive)
"none"; nests a `local=/domain/` directive under `domain-needed`. -/
def domain_section (domain : String) (domain_needed : Bool) : List String :=
  if domain.length > 0 ∧ strcaseeq "none" domain = false then
    [ "# DNS domain for the DNS server",
      "domain=" ++ domain,
      "" ] ++
    (if domain_needed then
      [ "# Never forward A or AAAA queries for plain names, without",
        "# dots or domain parts, to upstream nameservers. If the name",
        "# is not known from /etc/hosts or DHCP a NXDOMAIN is returned",
        "local=/" ++ domain ++ "/",
        "" ]
    else [])
  else []

/-- Host-record block, emitted only when configured (note: no blank line). -/
def host_record_section (host_record : String) : List String :=
  if host_record.length > 0 then
    [ "# Add A, AAAA and PTR records to the DNS",
      "host-record=" ++ host_record ]
  else []

/-- Fallback of the local `interface` variable: eth0 when unset. -/
def iface_or_default (interface : String) : String :=
  if interface.length = 0 then "eth0" else interface

/-- Listening-mode switch: one of the four mutually exclusive directive blocks,
followed by the blank line emitted after the switch. -/
def listening_section (mode : ListeningMode) (iface : String) : List String :=
  (match mode with
   | .LISTEN_LOCAL =>
      [ "# Only respond to queries from devices that are at most one hop away (local devices)",
        "local-service" ]
   | .LISTEN_ALL =>
      [ "# Listen on all interfaces, permit all origins",
        "except-interface=nonexisting" ]
   | .LISTEN_SINGLE =>
      [ "# Listen on one interface",
        "interface=" ++ iface ]
   | .LISTEN_BIND =>
      [ "# Bind to one interface",
        "interface=" ++ iface,
        "bind-interfaces" ]) ++ [""]

/-- Reverse-server block with its conditional same-domain and
unqualified-name forwarding directives. -/
def rev_server_section (rs : RevServerConf) (domain_needed : Bool) : List String :=
  if rs.active then
    [ "# Reverse server setting",
      "rev-server=" ++ rs.cidr ++ "," ++ rs.target ] ++
    (if rs.domain.length > 0 then
      [ "server=/" ++ rs.domain ++ "/" ++ rs.target ]
    else []) ++
    (if !domain_needed then
      [ "server=//" ++ rs.target ]
    else []) ++
    [ "" ]
  else []

/-- Per-host sub-block at the end of the DHCP block: emitted only for a
non-empty array; one `dhcp-host=` line per string item. -/
def dhcp_hosts_block (hosts : List CVal) : List String :=
  if hosts.length > 0 then
    "# Per host parameters for the DHCP server" ::
      cjson_directive_lines "dhcp-host=" hosts ++ [""]
  else []

/-- DHCP block: authoritative flag, lease file, range, router option, optional
rapid commit, optional IPv6 sub-block, then the per-host loop. -/
def dhcp_section (dhcp : DhcpConf) (iface : String) : List String :=
  if dhcp.active then
    [ "# DHCP server setting",
      "dhcp-authoritative",
      "dhcp-leasefile=/etc/pihole/dhcp.leases",
      "dhcp-range=" ++ dhcp.start ++ "," ++ dhcp.end_ ++ "," ++ dhcp.leasetime,
      "dhcp-option=option:router," ++ dhcp.router ] ++
    (if dhcp.rapid_commit then [ "dhcp-rapid-commit" ] else []) ++
    (if dhcp.ipv6 then
      [ "dhcp-option=option6:dns-server,[::]",
        "dhcp-range=::,constructor:" ++ iface ++ ",ra-names,ra-stateless,64" ]
    else []) ++
    [ "" ] ++
    dhcp_hosts_block dhcp.hosts
  else []

/-- CNAME block: emitted only for a non-empty array; one `cname=` line per
string item. -/
def cname_section (cnames : List CVal) : List String :=
  if cnames.length > 0 then
    "# User-defined custom CNAMEs" :: cjson_directive_lines "cname=" cnames ++ [""]
  else []

/-- Always-emitted RFC 6761 special-use domain lines. -/
def special_use_lines : List String :=
  [ "# RFC 6761: Caching DNS servers SHOULD recognize",
    "#     test, localhost, invalid",
    "# names as special and SHOULD NOT attempt to look up NS records for them, or",
    "# otherwise query authoritative DNS servers in an attempt to resolve these",
    "# names.",
    "server=/test/",
    "server=/localhost/",
    "server=/invalid/",
    "",
    "# The same RFC requests something similar for",
    "#     10.in-addr.arpa.      21.172.in-addr.arpa.  27.172.in-addr.arpa.",
    "#     16.172.in-addr.arpa.  22.172.in-addr.arpa.  28.172.in-addr.arpa.",
    "#     17.172.in-addr.arpa.  23.172.in-addr.arpa.  29.172.in-addr.arpa.",
    "#     18.172.in-addr.arpa.  24.172.in-addr.arpa.  30.172.in-addr.arpa.",
    "#     19.172.in-addr.arpa.  25.172.in-addr.arpa.  31.172.in-addr.arpa.",
    "#     20.172.in-addr.arpa.  26.172.in-addr.arpa.  168.192.in-addr.arpa.",
    "# Pi-hole implements this via the dnsmasq option \"bogus-priv\" above",
    "# (if enabled!) as this option also covers IPv6.",
    "",
    "# OpenWRT furthermore blocks    bind, local, onion    domains",
    "# see https://git.openwrt.org/?p=openwrt/openwrt.git;a=blob_plain;f=package/network/services/dnsmasq/files/rfc6761.conf;hb=HEAD",
    "# and https://www.iana.org/assignments/special-use-domain-names/special-use-domain-names.xhtml",
    "# We do not include the \".local\" rule ourselves, see https://github.com/pi-hole/pi-hole/pull/4282#discussion_r689112972",
    "server=/bind/",
    "server=/onion/" ]

/-- Drop-in directory inclusion, emitted only when /etc/dnsmasq.d exists at
render time (`directory_exists`, an environment observation). -/
def confdir_section (etc_dnsmasq_d_exists : Bool) : List String :=
  if etc_dnsmasq_d_exists then
    [ "# Load possible additional user scripts",
      "conf-dir=/etc/dnsmasq.d",
      "" ]
  else []

/-- Lines of the configuration document before the query-logging toggle. -/
def render_pre (conf : Config) (timestring : String) : List String :=
  write_config_header timestring ++
  addn_hosts_port_lines conf.dnsmasq.port ++
  upstream_section conf.dnsmasq.upstreams ++
  cache_size_lines conf.dnsmasq.cache_size ++
  localise_queries_lines

/-- Lines of the configuration document after the query-logging toggle. -/
def render_post (conf : Config) (etc_dnsmasq_d_exists : Bool) : List String :=
  logfacility_section conf.files.log_dnsmasq ++
  bogus_priv_section conf.dnsmasq.bogus_priv ++
  domain_needed_section conf.dnsmasq.domain_needed ++
  expand_hosts_section conf.dnsmasq.expand_hosts ++
  dnssec_section conf.dnsmasq.dnssec ++
  domain_section conf.dnsmasq.domain conf.dnsmasq.domain_needed ++
  host_record_section conf.dnsmasq.host_record ++
  listening_section conf.dnsmasq.listening_mode (iface_or_default conf.dnsmasq.interface) ++
  rev_server_section conf.dnsmasq.rev_server conf.dnsmasq.domain_needed ++
  dhcp_section conf.dnsmasq.dhcp (iface_or_default conf.dnsmasq.interface) ++
  cname_section conf.dnsmasq.cnames ++
  special_use_lines ++
  confdir_section etc_dnsmasq_d_exists

/-- Full sequence of lines `write_dnsmasq_config` writes to the staged file
DNSMASQ_TEMP_CONF, in emission order. The embedded timestamp and the
existence of /etc/dnsmasq.d are environment observations passed explicitly. -/
def write_dnsmasq_config_lines (conf : Config) (timestring : String)
    (etc_dnsmasq_d_exists : Bool) : List String :=
  render_pre conf timestring ++
  logging_block conf.dnsmasq.logging ++
  render_post conf etc_dnsmasq_d_exists

/-- Conventional success exit code. -/
def EXIT_SUCCESS : Nat := 0

/-- Exit-code extraction macro over the raw wait status word:
`(status & 0xff00) >> 8`. -/
def WEXITSTATUS (status : Nat) : Nat := (status / 256) % 256

/-- Signal-termination test macro over the raw wait status word (glibc:
the low seven bits are neither 0, exited, nor 0x7f, stopped). -/
def WIFSIGNALED (status : Nat) : Bool :=
  status % 128 != 0 && status % 128 != 127

/-- Validator verdict of `test_dnsmasq_config`: after forking the child that
runs the resolver's option parser in test mode and waiting for it, the
function returns `code == EXIT_SUCCESS && !crashed`, where `code` is
`WEXITSTATUS(status)` and `crashed` is set when `WIFSIGNALED(status)` holds.
A failed `pipe()` returns false before any child is spawned. The raw wait
status word of the child is passed in explicitly. -/
def test_dnsmasq_config (pipe_ok : Bool) (status : Nat) : Bool :=
  if pipe_ok then
    let code := WEXITSTATUS status
    let crashed := WIFSIGNALED status
    code == EXIT_SUCCESS && !crashed
  else false

/-- File-system slice touched by the installer: the contents (as lines) of
the staged file DNSMASQ_TEMP_CONF and of the live file DNSMASQ_PH_CONFIG,
`none` meaning the path does not exist. -/
structure InstallFS where
  temp : Option (List String)
  live : Option (List String)
  deriving DecidableEq, Repr

/-- Outcomes of the fallible environment calls made by one
`write_dnsmasq_config` run, plus its two environment observations. -/
structure InstallEnv where
  fopen_ok : Bool
  flock_ok : Bool
  funlock_ok : Bool
  pipe_ok : Bool
  child_status : Nat
  rename_ok : Bool
  fclose_ok : Bool
  timestring : String
  etc_dnsmasq_d_exists : Bool
  deriving DecidableEq, Repr

/-- State-passing model of `write_dnsmasq_config`: open and truncate the
staged file (fopen "w"), lock it, write the rendered document, unlock, then
optionally validate via `test_dnsmasq_config`, and only on success rename the
staged file onto the live path; each failing step returns false leaving the
file-system state as it was at that point. -/
def write_dnsmasq_config (env : InstallEnv) (conf : Config) (test_config : Bool)
    (fs : InstallFS) : Bool × InstallFS :=
  if env.fopen_ok then
    let fs1 : InstallFS := { fs with temp := some [] }
    if env.flock_ok then
      let content := write_dnsmasq_config_lines conf env.timestring env.etc_dnsmasq_d_exists
      let fs2 : InstallFS := { fs1 with temp := some content }
      if env.funlock_ok then
        if test_config && !test_dnsmasq_config env.pipe_ok env.child_status then
          (false, fs2)
        else if env.rename_ok then
          let fs3 : InstallFS := { temp := none, live := some content }
          if env.fclose_ok then (true, fs3) else (false, fs3)
        else (false, fs2)
      else (false, fs2)
    else (false, fs1)
  else (false, fs)

/-- Leading-whitespace skip of a scanf whitespace directive (also performed
by the %d conversion itself). -/
def skip_ws (cs : List Char) : List Char := cs.dropWhile isWsChar

/-- Literal matching of scanf format characters: consume exactly `lit` from
the input or fail. -/
def match_lit : List Char → List Char → Option (List Char)
  | [], cs => some cs
  | _ :: _, [] => none
  | l :: ls, c :: cs => if l == c then match_lit ls cs else none

/-- Maximal leading digit run and the rest of the input. -/
def take_digits : List Char → List Char × List Char
  | [] => ([], [])
  | c :: rest =>
      if c.isDigit then
        let (ds, r) := take_digits rest
        (c :: ds, r)
      else ([], c :: rest)

/-- Numeric value of a decimal digit run. -/
def decimal_value (ds : List Char) : Nat :=
  ds.foldl (fun a c => 10 * a + (c.toNat - 48)) 0

/-- Sign-and-digits part of the %d conversion, applied after its whitespace
skip: an optional sign followed by a non-empty digit run, failing otherwise. -/
def scan_int_signed : List Char → Option Int
  | [] => none
  | c :: rest =>
      if c == '-' then
        match take_digits rest with
        | ([], _) => none
        | (ds, _) => some (-(decimal_value ds : Int))
      else if c == '+' then
        match take_digits rest with
        | ([], _) => none
        | (ds, _) => some (decimal_value ds : Int)
      else
        match take_digits (c :: rest) with
        | ([], _) => none
        | (ds, _) => some (decimal_value ds : Int)

/-- The %d conversion of scanf: skip whitespace, then an optional sign and a
non-empty digit run. -/
def scan_int (cs0 : List Char) : Option Int :=
  scan_int_signed (skip_ws cs0)

/-- Return value of `sscanf(ptr, " at line %d of ", &lineno)` when it
assigns one item: whitespace directives and the literals "at" and "line" are
matched, then %d converts an integer. The trailing literal " of " of the
format cannot influence the result: %d is the last conversion, so sscanf
already reports one assigned item whether or not " of " follows. -/
def sscanf_at_line_of (cs : List Char) : Option Int := do
  let cs1 ← match_lit "at".data (skip_ws cs)
  let cs2 ← match_lit "line".data (skip_ws cs1)
  scan_int cs2

/-- Line-number extraction `get_lineno_from_string`: locate the first
occurrence of " at line " with strstr, then parse with sscanf; -1 when the
marker is absent or no integer could be converted. -/
def get_lineno_from_string (s : String) : Int :=
  match strstr s " at line " with
  | none => -1
  | some ptr =>
      match sscanf_at_line_of ptr with
      | some lineno => lineno
      | none => -1

/-- Character read of a C string at an index, returning the NUL terminator
for the index `strlen` (and NUL for anything past it). -/
def cStrGet (s : String) (i : Nat) : Char := s.data.getD i (Char.ofNat 0)

/-- Scanning loop of `get_dnsmasq_line`: `count` starts at 1 and each getline
result is compared against the requested line number; on a hit the buffer is
returned after the (ineffective) newline-stripping step, which tests the
character at index `strlen` — the NUL terminator — against a newline and
would truncate there. -/
def get_dnsmasq_line_loop (lineno : Nat) : List String → Nat → Option String
  | [], _ => none
  | l :: rest, count =>
      if count = lineno then
        some (if cStrGet l l.data.length == '\n'
              then String.mk (l.data.take l.data.length)
              else l)
      else get_dnsmasq_line_loop lineno rest (count + 1)

/-- Staged-file line fetch `get_dnsmasq_line`: `none` when the staged file
cannot be opened, otherwise the scanning loop over its getline lines (each
line carries its trailing newline except possibly the last). -/
def get_dnsmasq_line (file : Option (List String)) (lineno : Nat) : Option String :=
  match file with
  | none => none
  | some ls => get_dnsmasq_line_loop lineno ls 1

/-- Modelled from the spec: `find_equals` (declared outside src/) locates the
first `=` of the line; the importer takes the value starting one past it.
For a line without `=` the importers never reach this call, since the
recognized key markers contain `=`. -/
def after_first_equals_chars : List Char → List Char
  | [] => []
  | c :: rest => if c == '=' then rest else after_first_equals_chars rest

/-- String-level value extraction: everything after the first `=`. -/
def after_first_equals (l : String) : String :=
  String.mk (after_first_equals_chars l.data)

/-- Modelled from the spec: `trim_whitespace` (declared outside src/)
normalizes a string by removing leading and trailing whitespace in place. -/
def trim_whitespace (s : String) : String :=
  String.mk (((s.data.dropWhile isWsChar).reverse.dropWhile isWsChar).reverse)

/-- Scanning loop shared by the two legacy importers: skip any getline line
not containing `marker` (strstr), otherwise append the whitespace-trimmed
value after the first `=` of the line. -/
def import_legacy_lines (marker : String) : List String → List String
  | [] => []
  | l :: rest =>
      if (strstr l marker).isSome then
        trim_whitespace (after_first_equals l) :: import_legacy_lines marker rest
      else import_legacy_lines marker rest

/-- Outcomes of the fallible calls made by one legacy-importer run. The
final rename of the legacy file to its .bck suffix is logged but never
affects the returned result. -/
structure LegacyEnv where
  fopen_ok : Bool
  fclose_ok : Bool
  rename_ok : Bool
  deriving DecidableEq, Repr

/-- Importer `read_legacy_dhcp_static_config`: succeed trivially when the
legacy file is absent; fail when it cannot be opened; otherwise append one
entry per matching line to `config.dnsmasq.dhcp.hosts` (as cJSON strings)
and finally fail if closing the file fails — the appended entries remain in
the model either way. -/
def read_legacy_dhcp_static_config (env : LegacyEnv) (file : Option (List String))
    (hosts : List CVal) : Bool × List CVal :=
  match file with
  | none => (true, hosts)
  | some lines =>
      if env.fopen_ok then
        let hosts1 := hosts ++ (import_legacy_lines "dhcp-host=" lines).map CVal.str
        if env.fclose_ok then (true, hosts1) else (false, hosts1)
      else (false, hosts)

/-- Importer `read_legacy_cnames_config`: same algorithm against the legacy
CNAME file, appending to `config.dnsmasq.cnames`. -/
def read_legacy_cnames_config (env : LegacyEnv) (file : Option (List String))
    (cnames : List CVal) : Bool × List CVal :=
  match file with
  | none => (true, cnames)
  | some lines =>
      if env.fopen_ok then
        let cnames1 := cnames ++ (import_legacy_lines "cname=" lines).map CVal.str
        if env.fclose_ok then (true, cnames1) else (false, cnames1)
      else (false, cnames)

/-- Classification of an upstream-forwarding `server=` line: it starts with
`server=` but not with `server=/` (the domain-restricted form used by the
special-use exceptions and the reverse-server forwarding directives). -/
def is_upstream_server_line (l : String) : Bool :=
  charsPrefixOf "server=".data l.data && !charsPrefixOf "server=/".data l.data

/-- Classification of a listening-mode directive line: one of the four
mode-specific directives (`local-service`, `except-interface=nonexisting`,
an `interface=` line, `bind-interfaces`). -/
def is_listen_directive (l : String) : Bool :=
  charsEq l.data "local-service".data ||
  charsEq l.data "except-interface=nonexisting".data ||
  charsPrefixOf "interface=".data l.data ||
  charsEq l.data "bind-interfaces".data

/-- Classification of a per-host DHCP lease directive line. -/
def is_dhcp_host_line (l : String) : Bool := charsPrefixOf "dhcp-host=".data l.data

/-- Classification of a CNAME directive line. -/
def is_cname_line (l : String) : Bool := charsPrefixOf "cname=".data l.data

/-- Copy of a configuration with only the query-logging flag replaced. -/
def with_logging (conf : Config) (b : Bool) : Config :=
  { conf with dnsmasq := { conf.dnsmasq with logging := b } }

/-- Concrete configuration used by the witnesses: two upstream servers with a
non-string array item between them, logging enabled, local listening mode. -/
def exampleConf : Config :=
  { dnsmasq :=
      { port := 53
        upstreams := [CVal.str "8.8.8.8", CVal.notStr, CVal.str "1.1.1.1"]
        cache_size := 10000
        logging := true
        bogus_priv := false
        domain_needed := false
        expand_hosts := false
        dnssec := false
        domain := "lan"
        host_record := ""
        interface := ""
        listening_mode := ListeningMode.LISTEN_LOCAL
        rev_server := { active := false, cidr := "", target := "", domain := "" }
        dhcp := { active := false, start := "", end_ := "", leasetime := "", router := "",
                  rapid_commit := false, ipv6 := false, hosts := [] }
        cnames := [] }
    files := { log_dnsmasq := "" } }

/-- Concrete installer environment used by the witnesses: every system call
succeeds, the pipe is created, and the validator child exits with status
word 256 (exit code 1, not signalled), so validation reports failure. -/
def exampleEnv : InstallEnv :=
  { fopen_ok := true, flock_ok := true, funlock_ok := true,
    pipe_ok := true, child_status := 256, rename_ok := true, fclose_ok := true,
    timestring := "TS", etc_dnsmasq_d_exists := false }

/-- Concrete starting file-system state used by the witnesses: no staged
file, and a live configuration with known contents. -/
def exampleFS : InstallFS := { temp := none, live := some ["old line"] }

/-- Concrete legacy-importer environment whose close call succeeds. -/
def exampleLegacyEnv : LegacyEnv := { fopen_ok := true, fclose_ok := true, rename_ok := true }

/-- Concrete legacy-importer environment whose close call fails. -/
def exampleLegacyEnvBadClose : LegacyEnv := { fopen_ok := true, fclose_ok := false, rename_ok := true }

/-- Concrete legacy file contents used by the witnesses: one matching line
and one unrelated line. -/
def exampleLegacyLines : List String :=
  ["dhcp-host=aa:bb:cc:dd:ee:ff,host1\n", "unrelated\n"]

/-- Concrete configuration whose upstream array is all strings (used by the
witnesses of the upstream-line property). -/
def exampleConf2 : Config :=
  { exampleConf with
    dnsmasq := { exampleConf.dnsmasq with
                 upstreams := [CVal.str "8.8.8.8", CVal.str "1.1.1.1"] } }

/-- Concrete configuration with non-string items in all three arrays and an
active DHCP block (used by the witnesses of the skipping property). -/
def exampleConf3 : Config :=
  { exampleConf with
    dnsmasq := { exampleConf.dnsmasq with
                 upstreams := [CVal.str "8.8.8.8", CVal.notStr, CVal.str "1.1.1.1"]
                 dhcp := { exampleConf.dnsmasq.dhcp with
                           active := true
                           start := "192.168.0.10"
                           end_ := "192.168.0.250"
                           leasetime := "24h"
                           router := "192.168.0.1"
                           hosts := [CVal.str "aa:bb:cc:dd:ee:ff,host1", CVal.notStr] }
                 cnames := [CVal.str "alias.lan,host1.lan", CVal.notStr] } }

/-- A line of the form `pre ++ s` fails a predicate everywhere on a cJSON
loop when it fails for every string item. -/
theorem filter_cjson_eq_nil (p : String → Bool) (pre : String) (xs : List CVal)
    (h : ∀ s, p (pre ++ s) = false) :
    (cjson_directive_lines pre xs).filter p = [] := by
  induction xs with
  | nil => rfl
  | cons x rest ih =>
      cases x with
      | str s => simp [cjson_directive_lines, List.filter_cons, h s, ih]
      | notStr => simpa [cjson_directive_lines] using ih

/-- A cJSON loop is untouched by a filter whose predicate holds on every
emitted line. -/
theorem filter_cjson_eq_self (p : String → Bool) (pre : String) (xs : List CVal)
    (h : ∀ s, p (pre ++ s) = true) :
    (cjson_directive_lines pre xs).filter p = cjson_directive_lines pre xs := by
  induction xs with
  | nil => rfl
  | cons x rest ih =>
      cases x with
      | str s => simp [cjson_directive_lines, List.filter_cons, h s, ih]
      | notStr => simpa [cjson_directive_lines] using ih

/-- A cJSON loop emits exactly one line per string-valued item. -/
theorem cjson_length_countP (pre : String) (xs : List CVal) :
    (cjson_directive_lines pre xs).length = xs.countP CVal.isStr := by
  induction xs with
  | nil => rfl
  | cons x rest ih =>
      cases x with
      | str s => simp [cjson_directive_lines, List.countP_cons, CVal.isStr, ih]
      | notStr => simp [cjson_directive_lines, List.countP_cons, CVal.isStr, ih]

/-- On an all-string array, the cJSON loop is a plain map. -/
theorem cjson_map_str (pre : String) (ss : List String) :
    cjson_directive_lines pre (ss.map CVal.str) = ss.map (fun s => pre ++ s) := by
  induction ss with
  | nil => rfl
  | cons s rest ih => simp [cjson_directive_lines, ih]

/-- Membership-restricted variant of `filter_cjson_eq_self`. -/
theorem filter_cjson_eq_self_mem (p : String → Bool) (pre : String) :
    ∀ xs : List CVal, (∀ s, CVal.str s ∈ xs → p (pre ++ s) = true) →
      (cjson_directive_lines pre xs).filter p = cjson_directive_lines pre xs := by
  intro xs
  induction xs with
  | nil => intro _; rfl
  | cons x rest ih =>
      intro h
      cases x with
      | str s =>
          have hs := h s (by simp)
          simp [cjson_directive_lines, List.filter_cons, hs,
                ih (fun t ht => h t (List.mem_cons_of_mem _ ht))]
      | notStr =>
          simpa [cjson_directive_lines] using
            ih (fun t ht => h t (List.mem_cons_of_mem _ ht))

/-- The upstream block holds no listening-mode, dhcp-host or cname line. -/
theorem filter_nil_upstream (xs : List CVal) :
    (upstream_section xs).filter is_listen_directive = []
    ∧ (upstream_section xs).filter is_dhcp_host_line = []
    ∧ (upstream_section xs).filter is_cname_line = [] := by
  unfold upstream_section
  refine ⟨?_, ?_, ?_⟩ <;>
    (split
     · show (cjson_directive_lines "server=" xs ++ [""]).filter _ = []
       rw [List.filter_append, filter_cjson_eq_nil _ _ _ (fun s => rfl)]
       rfl
     · rfl)

/-- The logging toggle holds none of the classified directive lines. -/
theorem filter_nil_logging (b : Bool) :
    (logging_block b).filter is_upstream_server_line = []
    ∧ (logging_block b).filter is_listen_directive = []
    ∧ (logging_block b).filter is_dhcp_host_line = []
    ∧ (logging_block b).filter is_cname_line = [] := by
  unfold logging_block
  refine ⟨?_, ?_, ?_, ?_⟩ <;> (split <;> rfl)

/-- The log-facility block holds none of the classified directive lines. -/
theorem filter_nil_logfacility (s : String) :
    (logfacility_section s).filter is_upstream_server_line = []
    ∧ (logfacility_section s).filter is_listen_directive = []
    ∧ (logfacility_section s).filter is_dhcp_host_line = []
    ∧ (logfacility_section s).filter is_cname_line = [] := by
  unfold logfacility_section
  refine ⟨?_, ?_, ?_, ?_⟩ <;> (split <;> rfl)

/-- The bogus-priv block holds none of the classified directive lines. -/
theorem filter_nil_bogus (b : Bool) :
    (bogus_priv_section b).filter is_upstream_server_line = []
    ∧ (bogus_priv_section b).filter is_listen_directive = []
    ∧ (bogus_priv_section b).filter is_dhcp_host_line = []
    ∧ (bogus_priv_section b).filter is_cname_line = [] := by
  unfold bogus_priv_section
  refine ⟨?_, ?_, ?_, ?_⟩ <;> (split <;> rfl)

/-- The domain-needed block holds none of the classified directive lines. -/
theorem filter_nil_domain_needed (b : Bool) :
    (domain_needed_section b).filter is_upstream_server_line = []
    ∧ (domain_needed_section b).filter is_listen_directive = []
    ∧ (domain_needed_section b).filter is_dhcp_host_line = []
    ∧ (domain_needed_section b).filter is_cname_line = [] := by
  unfold domain_needed_section
  refine ⟨?_, ?_, ?_, ?_⟩ <;> (split <;> rfl)

/-- The expand-hosts block holds none of the classified directive lines. -/
theorem filter_nil_expand (b : Bool) :
    (expand_hosts_section b).filter is_upstream_server_line = []
    ∧ (expand_hosts_section b).filter is_listen_directive = []
    ∧ (expand_hosts_section b).filter is_dhcp_host_line = []
    ∧ (expand_hosts_section b).filter is_cname_line = [] := by
  unfold expand_hosts_section
  refine ⟨?_, ?_, ?_, ?_⟩ <;> (split <;> rfl)

/-- The DNSSEC block holds none of the classified directive lines. -/
theorem filter_nil_dnssec (b : Bool) :
    (dnssec_section b).filter is_upstream_server_line = []
    ∧ (dnssec_section b).filter is_listen_directive = []
    ∧ (dnssec_section b).filter is_dhcp_host_line = []
    ∧ (dnssec_section b).filter is_cname_line = [] := by
  unfold dnssec_section
  refine ⟨?_, ?_, ?_, ?_⟩ <;> (split <;> rfl)

/-- The domain block holds none of the classified directive lines. -/
theorem filter_nil_domain (s : String) (dn : Bool) :
    (domain_section s dn).filter is_upstream_server_line = []
    ∧ (domain_section s dn).filter is_listen_directive = []
    ∧ (domain_section s dn).filter is_dhcp_host_line = []
    ∧ (domain_section s dn).filter is_cname_line = [] := by
  unfold domain_section
  refine ⟨?_, ?_, ?_, ?_⟩ <;>
    (split
     · split <;> rfl
     · rfl)

/-- The host-record block holds none of the classified directive lines. -/
theorem filter_nil_host_record (s : String) :
    (host_record_section s).filter is_upstream_server_line = []
    ∧ (host_record_section s).filter is_listen_directive = []
    ∧ (host_record_section s).filter is_dhcp_host_line = []
    ∧ (host_record_section s).filter is_cname_line = [] := by
  unfold host_record_section
  refine ⟨?_, ?_, ?_, ?_⟩ <;> (split <;> rfl)

/-- The listening block holds no upstream, dhcp-host or cname line. -/
theorem filter_nil_listening (mode : ListeningMode) (iface : String) :
    (listening_section mode iface).filter is_upstream_server_line = []
    ∧ (listening_section mode iface).filter is_dhcp_host_line = []
    ∧ (listening_section mode iface).filter is_cname_line = [] := by
  unfold listening_section
  refine ⟨?_, ?_, ?_⟩ <;> (cases mode <;> rfl)

/-- The reverse-server block holds none of the classified directive lines. -/
theorem filter_nil_rev_server (rs : RevServerConf) (dn : Bool) :
    (rev_server_section rs dn).filter is_upstream_server_line = []
    ∧ (rev_server_section rs dn).filter is_listen_directive = []
    ∧ (rev_server_section rs dn).filter is_dhcp_host_line = []
    ∧ (rev_server_section rs dn).filter is_cname_line = [] := by
  unfold rev_server_section
  refine ⟨?_, ?_, ?_, ?_⟩ <;>
    (split
     · split <;> split <;> rfl
     · rfl)

/-- The per-host sub-block holds no upstream, listening-mode or cname line. -/
theorem filter_nil_hosts_block (hosts : List CVal) :
    (dhcp_hosts_block hosts).filter is_upstream_server_line = []
    ∧ (dhcp_hosts_block hosts).filter is_listen_directive = []
    ∧ (dhcp_hosts_block hosts).filter is_cname_line = [] := by
  unfold dhcp_hosts_block
  refine ⟨?_, ?_, ?_⟩ <;>
    (split
     · show (cjson_directive_lines "dhcp-host=" hosts ++ [""]).filter _ = []
       rw [List.filter_append, filter_cjson_eq_nil _ _ _ (fun s => rfl)]
       rfl
     · rfl)

/-- The DHCP block holds no upstream, listening-mode or cname line. -/
theorem filter_nil_dhcp (dhcp : DhcpConf) (iface : String) :
    (dhcp_section dhcp iface).filter is_upstream_server_line = []
    ∧ (dhcp_section dhcp iface).filter is_listen_directive = []
    ∧ (dhcp_section dhcp iface).filter is_cname_line = [] := by
  unfold dhcp_section
  refine ⟨?_, ?_, ?_⟩
  · split
    · simp only [List.filter_append, (filter_nil_hosts_block dhcp.hosts).1]
      split <;> split <;> rfl
    · rfl
  · split
    · simp only [List.filter_append, (filter_nil_hosts_block dhcp.hosts).2.1]
      split <;> split <;> rfl
    · rfl
  · split
    · simp only [List.filter_append, (filter_nil_hosts_block dhcp.hosts).2.2]
      split <;> split <;> rfl
    · rfl

/-- The CNAME block holds no upstream, listening-mode or dhcp-host line. -/
theorem filter_nil_cname (xs : List CVal) :
    (cname_section xs).filter is_upstream_server_line = []
    ∧ (cname_section xs).filter is_listen_directive = []
    ∧ (cname_section xs).filter is_dhcp_host_line = [] := by
  unfold cname_section
  refine ⟨?_, ?_, ?_⟩ <;>
    (split
     · show (cjson_directive_lines "cname=" xs ++ [""]).filter _ = []
       rw [List.filter_append, filter_cjson_eq_nil _ _ _ (fun s => rfl)]
       rfl
     · rfl)

/-- The drop-in block holds none of the classified directive lines. -/
theorem filter_nil_confdir (b : Bool) :
    (confdir_section b).filter is_upstream_server_line = []
    ∧ (confdir_section b).filter is_listen_directive = []
    ∧ (confdir_section b).filter is_dhcp_host_line = []
    ∧ (confdir_section b).filter is_cname_line = [] := by
  unfold confdir_section
  refine ⟨?_, ?_, ?_, ?_⟩ <;> (split <;> rfl)

/-- The header never holds a classified directive line. -/
theorem filter_nil_header (ts : String) :
    (write_config_header ts).filter is_upstream_server_line = []
    ∧ (write_config_header ts).filter is_listen_directive = []
    ∧ (write_config_header ts).filter is_dhcp_host_line = []
    ∧ (write_config_header ts).filter is_cname_line = [] :=
  ⟨rfl, rfl, rfl, rfl⟩

/-- The addn-hosts/no-resolv/port block never holds a classified line. -/
theorem filter_nil_addn (port : Nat) :
    (addn_hosts_port_lines port).filter is_upstream_server_line = []
    ∧ (addn_hosts_port_lines port).filter is_listen_directive = []
    ∧ (addn_hosts_port_lines port).filter is_dhcp_host_line = []
    ∧ (addn_hosts_port_lines port).filter is_cname_line = [] :=
  ⟨rfl, rfl, rfl, rfl⟩

/-- The cache-size block never holds a classified line. -/
theorem filter_nil_cache (n : Nat) :
    (cache_size_lines n).filter is_upstream_server_line = []
    ∧ (cache_size_lines n).filter is_listen_directive = []
    ∧ (cache_size_lines n).filter is_dhcp_host_line = []
    ∧ (cache_size_lines n).filter is_cname_line = [] :=
  ⟨rfl, rfl, rfl, rfl⟩

/-- The localise-queries block never holds a classified line. -/
theorem filter_nil_localise :
    localise_queries_lines.filter is_upstream_server_line = []
    ∧ localise_queries_lines.filter is_listen_directive = []
    ∧ localise_queries_lines.filter is_dhcp_host_line = []
    ∧ localise_queries_lines.filter is_cname_line = [] :=
  ⟨rfl, rfl, rfl, rfl⟩

/-- The special-use block never holds a classified line: its `server=` lines
all use the domain-restricted `server=/` form. -/
theorem filter_nil_special :
    special_use_lines.filter is_upstream_server_line = []
    ∧ special_use_lines.filter is_listen_directive = []
    ∧ special_use_lines.filter is_dhcp_host_line = []
    ∧ special_use_lines.filter is_cname_line = [] :=
  ⟨rfl, rfl, rfl, rfl⟩

/-- On upstream items without a leading slash, the upstream block filtered to
upstream-forwarding lines is exactly its loop output. -/
theorem filter_up_upstream_section (xs : List CVal)
    (h : ∀ s, CVal.str s ∈ xs → charsPrefixOf "/".data s.data = false) :
    (upstream_section xs).filter is_upstream_server_line
      = cjson_directive_lines "server=" xs := by
  have h' : ∀ s, CVal.str s ∈ xs → is_upstream_server_line ("server=" ++ s) = true := by
    intro s hs
    show (!charsPrefixOf "/".data s.data) = true
    rw [h s hs]; rfl
  unfold upstream_section
  split
  · show (cjson_directive_lines "server=" xs ++ [""]).filter _ = _
    rw [List.filter_append, filter_cjson_eq_self_mem _ _ _ h']
    exact List.append_nil _
  · rename_i hlen
    have hx : xs = [] := List.length_eq_zero.mp (by omega)
    subst hx; rfl

/-- The listening block filtered to listening-mode directives is exactly the
selected mode's directive lines. -/
theorem filter_li_listening (mode : ListeningMode) (iface : String) :
    (listening_section mode iface).filter is_listen_directive
      = match mode with
        | .LISTEN_LOCAL => ["local-service"]
        | .LISTEN_ALL => ["except-interface=nonexisting"]
        | .LISTEN_SINGLE => ["interface=" ++ iface]
        | .LISTEN_BIND => ["interface=" ++ iface, "bind-interfaces"] := by
  cases mode <;> rfl

/-- The per-host sub-block filtered to dhcp-host lines is exactly its loop
output. -/
theorem filter_dh_hosts_block (hosts : List CVal) :
    (dhcp_hosts_block hosts).filter is_dhcp_host_line
      = cjson_directive_lines "dhcp-host=" hosts := by
  unfold dhcp_hosts_block
  split
  · show (cjson_directive_lines "dhcp-host=" hosts ++ [""]).filter _ = _
    rw [List.filter_append, filter_cjson_eq_self _ _ _ (fun s => rfl)]
    exact List.append_nil _
  · rename_i hlen
    have hx : hosts = [] := List.length_eq_zero.mp (by omega)
    subst hx; rfl

/-- The DHCP block filtered to dhcp-host lines is its per-host loop output
when DHCP is active, and empty otherwise. -/
theorem filter_dh_dhcp (dhcp : DhcpConf) (iface : String) :
    (dhcp_section dhcp iface).filter is_dhcp_host_line
      = if dhcp.active then cjson_directive_lines "dhcp-host=" dhcp.hosts else [] := by
  unfold dhcp_section
  cases hact : dhcp.active with
  | false => simp [hact]
  | true =>
      simp only [hact, if_true]
      simp only [List.filter_append, filter_dh_hosts_block]
      split <;> split <;> rfl

/-- The CNAME block filtered to cname lines is exactly its loop output. -/
theorem filter_cn_cname (xs : List CVal) :
    (cname_section xs).filter is_cname_line = cjson_directive_lines "cname=" xs := by
  unfold cname_section
  split
  · show (cjson_directive_lines "cname=" xs ++ [""]).filter _ = _
    rw [List.filter_append, filter_cjson_eq_self _ _ _ (fun s => rfl)]
    exact List.append_nil _
  · rename_i hlen
    have hx : xs = [] := List.length_eq_zero.mp (by omega)
    subst hx; rfl

/-- Filtering the whole rendered document to upstream-forwarding lines gives
exactly the upstream loop output, for any model whose upstream strings do not
begin with a slash. -/
theorem render_filter_upstream (conf : Config) (ts : String) (dir : Bool)
    (h : ∀ s, CVal.str s ∈ conf.dnsmasq.upstreams → charsPrefixOf "/".data s.data = false) :
    (write_dnsmasq_config_lines conf ts dir).filter is_upstream_server_line
      = cjson_directive_lines "server=" conf.dnsmasq.upstreams := by
  unfold write_dnsmasq_config_lines render_pre render_post
  simp only [List.filter_append]
  rw [(filter_nil_header ts).1, (filter_nil_addn _).1, filter_up_upstream_section _ h,
      (filter_nil_cache _).1, filter_nil_localise.1, (filter_nil_logging _).1,
      (filter_nil_logfacility _).1, (filter_nil_bogus _).1, (filter_nil_domain_needed _).1,
      (filter_nil_expand _).1, (filter_nil_dnssec _).1, (filter_nil_domain _ _).1,
      (filter_nil_host_record _).1, (filter_nil_listening _ _).1, (filter_nil_rev_server _ _).1,
      (filter_nil_dhcp _ _).1, (filter_nil_cname _).1, filter_nil_special.1,
      (filter_nil_confdir _).1]
  simp

/-- Filtering the whole rendered document to dhcp-host lines gives the
per-host loop output when DHCP is active, and nothing otherwise. -/
theorem render_filter_dhcp_host (conf : Config) (ts : String) (dir : Bool) :
    (write_dnsmasq_config_lines conf ts dir).filter is_dhcp_host_line
      = if conf.dnsmasq.dhcp.active then
          cjson_directive_lines "dhcp-host=" conf.dnsmasq.dhcp.hosts
        else [] := by
  unfold write_dnsmasq_config_lines render_pre render_post
  simp only [List.filter_append]
  rw [(filter_nil_header ts).2.2.1, (filter_nil_addn _).2.2.1, (filter_nil_upstream _).2.1,
      (filter_nil_cache _).2.2.1, filter_nil_localise.2.2.1, (filter_nil_logging _).2.2.1,
      (filter_nil_logfacility _).2.2.1, (filter_nil_bogus _).2.2.1,
      (filter_nil_domain_needed _).2.2.1, (filter_nil_expand _).2.2.1,
      (filter_nil_dnssec _).2.2.1, (filter_nil_domain _ _).2.2.1,
      (filter_nil_host_record _).2.2.1, (filter_nil_listening _ _).2.1,
      (filter_nil_rev_server _ _).2.2.1, filter_dh_dhcp _ _, (filter_nil_cname _).2.2,
      filter_nil_special.2.2.1, (filter_nil_confdir _).2.2.1]
  simp

/-- Filtering the whole rendered document to cname lines gives exactly the
CNAME loop output. -/
theorem render_filter_cname (conf : Config) (ts : String) (dir : Bool) :
    (write_dnsmasq_config_lines conf ts dir).filter is_cname_line
      = cjson_directive_lines "cname=" conf.dnsmasq.cnames := by
  unfold write_dnsmasq_config_lines render_pre render_post
  simp only [List.filter_append]
  rw [(filter_nil_header ts).2.2.2, (filter_nil_addn _).2.2.2, (filter_nil_upstream _).2.2,
      (filter_nil_cache _).2.2.2, filter_nil_localise.2.2.2, (filter_nil_logging _).2.2.2,
      (filter_nil_logfacility _).2.2.2, (filter_nil_bogus _).2.2.2,
      (filter_nil_domain_needed _).2.2.2, (filter_nil_expand _).2.2.2,
      (filter_nil_dnssec _).2.2.2, (filter_nil_domain _ _).2.2.2,
      (filter_nil_host_record _).2.2.2, (filter_nil_listening _ _).2.2,
      (filter_nil_rev_server _ _).2.2.2, (filter_nil_dhcp _ _).2.2, filter_cn_cname _,
      filter_nil_special.2.2.2, (filter_nil_confdir _).2.2.2]
  simp

/-- C7: the rendered output contains exactly one of the four listening-mode
directive forms, selected by the listening-mode enum (local-only:
local-service; all-interfaces: except-interface=nonexisting;
single-interface: interface=name; bind: interface=name plus
bind-interfaces); no other mode's directive appears anywhere in the render,
and an empty configured interface name falls back to the default eth0. -/
theorem listening_mode_exclusive (conf : Config) (ts : String) (dir : Bool) :
    (write_dnsmasq_config_lines conf ts dir).filter is_listen_directive
      = match conf.dnsmasq.listening_mode with
        | .LISTEN_LOCAL => ["local-service"]
        | .LISTEN_ALL => ["except-interface=nonexisting"]
        | .LISTEN_SINGLE =>
            ["interface=" ++
              (if conf.dnsmasq.interface.length = 0 then "eth0" else conf.dnsmasq.interface)]
        | .LISTEN_BIND =>
            ["interface=" ++
              (if conf.dnsmasq.interface.length = 0 then "eth0" else conf.dnsmasq.interface),
             "bind-interfaces"] := by
  unfold write_dnsmasq_config_lines render_pre render_post
  simp only [List.filter_append]
  rw [(filter_nil_header ts).2.1, (filter_nil_addn _).2.1, (filter_nil_upstream _).1,
      (filter_nil_cache _).2.1, filter_nil_localise.2.1, (filter_nil_logging _).2.1,
      (filter_nil_logfacility _).2.1, (filter_nil_bogus _).2.1,
      (filter_nil_domain_needed _).2.1, (filter_nil_expand _).2.1,
      (filter_nil_dnssec _).2.1, (filter_nil_domain _ _).2.1,
      (filter_nil_host_record _).2.1, filter_li_listening _ _,
      (filter_nil_rev_server _ _).2.1, (filter_nil_dhcp _ _).2.1,
      (filter_nil_cname _).2.1, filter_nil_special.2.1, (filter_nil_confdir _).2.1]
  cases hm : conf.dnsmasq.listening_mode <;> simp [iface_or_default]

/-- C3: a model with an empty upstream list renders no upstream-forwarding
server= line, and a model with N upstream server strings renders exactly the
N lines server=s, one per server, in list order. -/
theorem upstream_server_lines_per_model (conf : Config) (ts : String) (dir : Bool)
    (servers : List String)
    (hup : conf.dnsmasq.upstreams = servers.map CVal.str)
    (hs : ∀ s ∈ servers, charsPrefixOf "/".data s.data = false) :
    (write_dnsmasq_config_lines conf ts dir).filter is_upstream_server_line
      = servers.map (fun s => "server=" ++ s) := by
  have h : ∀ s, CVal.str s ∈ conf.dnsmasq.upstreams → charsPrefixOf "/".data s.data = false := by
    intro s hmem
    rw [hup] at hmem
    rcases List.mem_map.mp hmem with ⟨t, ht, hts⟩
    injection hts with h2
    subst h2
    exact hs t ht
  rw [render_filter_upstream conf ts dir h, hup, cjson_map_str]

/-- Witness for C3 at a concrete two-server model. -/
theorem upstream_server_lines_per_model_witness :
    (write_dnsmasq_config_lines exampleConf2 "TS" false).filter is_upstream_server_line
      = ["server=8.8.8.8", "server=1.1.1.1"] := by
  have h := upstream_server_lines_per_model exampleConf2 "TS" false
    ["8.8.8.8", "1.1.1.1"] rfl (by decide)
  exact h

/-- C10: non-string (or null) items of the upstream, DHCP per-host and CNAME
arrays are silently skipped: the number of emitted server=/dhcp-host=/cname=
lines equals the number of string-valued items of the respective array, not
its total length. -/
theorem nonstring_items_skipped (conf : Config) (ts : String) (dir : Bool)
    (hactive : conf.dnsmasq.dhcp.active = true)
    (hup : ∀ s, CVal.str s ∈ conf.dnsmasq.upstreams → charsPrefixOf "/".data s.data = false) :
    ((write_dnsmasq_config_lines conf ts dir).filter is_upstream_server_line).length
        = conf.dnsmasq.upstreams.countP CVal.isStr
    ∧ ((write_dnsmasq_config_lines conf ts dir).filter is_dhcp_host_line).length
        = conf.dnsmasq.dhcp.hosts.countP CVal.isStr
    ∧ ((write_dnsmasq_config_lines conf ts dir).filter is_cname_line).length
        = conf.dnsmasq.cnames.countP CVal.isStr := by
  refine ⟨?_, ?_, ?_⟩
  · rw [render_filter_upstream conf ts dir hup, cjson_length_countP]
  · rw [render_filter_dhcp_host]
    simp [hactive, cjson_length_countP]
  · rw [render_filter_cname, cjson_length_countP]

/-- Witness for C10 at a model holding a non-string item in each array. -/
theorem nonstring_items_skipped_witness :
    ((write_dnsmasq_config_lines exampleConf3 "TS" false).filter is_upstream_server_line).length = 2
    ∧ ((write_dnsmasq_config_lines exampleConf3 "TS" false).filter is_dhcp_host_line).length = 1
    ∧ ((write_dnsmasq_config_lines exampleConf3 "TS" false).filter is_cname_line).length = 1 := by
  have h := nonstring_items_skipped exampleConf3 "TS" false rfl ?hup
  · exact ⟨h.1, h.2.1, h.2.2⟩
  case hup =>
    intro s hs
    simp only [exampleConf3, List.mem_cons, List.not_mem_nil, or_false] at hs
    rcases hs with h1 | h1 | h1
    · injection h1 with h2; subst h2; decide
    · exact CVal.noConfusion h1
    · injection h1 with h2; subst h2; decide

/-- C1: when testing is enabled and validation fails, write_dnsmasq_config
returns failure before any rename: the staged file is left in place holding
the freshly rendered document and the live configuration path is byte-for-
byte what it was before the attempted install. -/
theorem validation_failure_is_atomic (env : InstallEnv) (conf : Config) (fs : InstallFS)
    (h1 : env.fopen_ok = true) (h2 : env.flock_ok = true) (h3 : env.funlock_ok = true)
    (h4 : test_dnsmasq_config env.pipe_ok env.child_status = false) :
    write_dnsmasq_config env conf true fs
      = (false,
         { temp := some (write_dnsmasq_config_lines conf env.timestring env.etc_dnsmasq_d_exists),
           live := fs.live }) := by
  simp [write_dnsmasq_config, h1, h2, h3, h4]

/-- Witness for C1: every system call succeeds but the validator child exits
with code 1, so nothing reaches the live path. -/
theorem validation_failure_is_atomic_witness :
    write_dnsmasq_config exampleEnv exampleConf true exampleFS
      = (false,
         { temp := some (write_dnsmasq_config_lines exampleConf "TS" false),
           live := some ["old line"] }) :=
  validation_failure_is_atomic exampleEnv exampleConf exampleFS rfl rfl rfl rfl

/-- C2: for every validator run that reaches the child, success is reported
exactly when the exit status equals the conventional success code and the
child was not terminated by a signal; signal termination forces failure no
matter what the extracted exit-code value is. -/
theorem validator_success_iff (status : Nat) :
    (test_dnsmasq_config true status = true
      ↔ (WEXITSTATUS status = EXIT_SUCCESS ∧ WIFSIGNALED status = false))
    ∧ (WIFSIGNALED status = true → test_dnsmasq_config true status = false) := by
  constructor
  · simp [test_dnsmasq_config, EXIT_SUCCESS, Bool.and_eq_true, Bool.not_eq_true']
  · intro h
    simp [test_dnsmasq_config, h]

/-- Witness for C2 at status word 9 (killed by signal 9): the extracted exit
code is 0, yet the verdict is failure. -/
theorem validator_success_iff_witness :
    WEXITSTATUS 9 = 0 ∧ WIFSIGNALED 9 = true ∧ test_dnsmasq_config true 9 = false :=
  ⟨by decide, by decide, (validator_success_iff 9).2 (by decide)⟩

/-- C6 (code bug): the newline-stripping step of get_dnsmasq_line tests the
character at index strlen — always the NUL terminator — so the trailing
newline of the fetched line is never stripped; the unreadable-file and
too-few-lines cases do return the not-found result. -/
theorem get_dnsmasq_line_keeps_newline :
    get_dnsmasq_line (some ["abc\n", "def\n"]) 1 = some "abc\n"
    ∧ get_dnsmasq_line (some ["abc\n", "def\n"]) 3 = none
    ∧ get_dnsmasq_line none 1 = none
    ∧ get_dnsmasq_line (some ["abc\n", "def\n"]) 1 ≠ some "abc" := by
  refine ⟨rfl, rfl, rfl, by decide⟩

/-- The importer loop appends exactly one value per marker-matching line, in
file order, with no deduplication. -/
theorem import_legacy_lines_eq (marker : String) (lines : List String) :
    import_legacy_lines marker lines
      = (lines.filter (fun l => (strstr l marker).isSome)).map
          (fun l => trim_whitespace (after_first_equals l)) := by
  induction lines with
  | nil => rfl
  | cons l rest ih =>
      unfold import_legacy_lines
      cases hm : (strstr l marker).isSome <;> simp [hm, List.filter_cons, ih]

/-- C8: each legacy importer appends to its model list exactly one entry per
line containing its key marker — the whitespace-trimmed substring after the
first equals sign — skipping all other lines and keeping repeated matches as
repeated entries. -/
theorem legacy_import_appends_matching (env : LegacyEnv) (lines : List String)
    (hosts cnames : List CVal)
    (hopen : env.fopen_ok = true) (hclose : env.fclose_ok = true) :
    read_legacy_dhcp_static_config env (some lines) hosts
      = (true, hosts ++ (lines.filter (fun l => (strstr l "dhcp-host=").isSome)).map
          (fun l => CVal.str (trim_whitespace (after_first_equals l))))
    ∧ read_legacy_cnames_config env (some lines) cnames
      = (true, cnames ++ (lines.filter (fun l => (strstr l "cname=").isSome)).map
          (fun l => CVal.str (trim_whitespace (after_first_equals l)))) := by
  constructor <;>
    simp [read_legacy_dhcp_static_config, read_legacy_cnames_config, hopen, hclose,
          import_legacy_lines_eq, List.map_map, Function.comp]

/-- Witness for C8 on the spec's example file: one matching line, one
unrelated line, one appended entry. -/
theorem legacy_import_appends_matching_witness :
    read_legacy_dhcp_static_config exampleLegacyEnv (some exampleLegacyLines) []
      = (true, [CVal.str "aa:bb:cc:dd:ee:ff,host1"])
    ∧ read_legacy_cnames_config exampleLegacyEnv (some exampleLegacyLines) []
      = (true, []) := by
  have h := legacy_import_appends_matching exampleLegacyEnv exampleLegacyLines [] [] rfl rfl
  exact ⟨h.1, h.2⟩

/-- C9: when the legacy file reads to the end but closing it fails, the
importer reports failure even though every matching entry has already been
appended to the model and stays there — there is no rollback. -/
theorem legacy_import_no_rollback (env : LegacyEnv) (lines : List String)
    (hosts cnames : List CVal)
    (hopen : env.fopen_ok = true) (hclose : env.fclose_ok = false) :
    read_legacy_dhcp_static_config env (some lines) hosts
      = (false, hosts ++ (import_legacy_lines "dhcp-host=" lines).map CVal.str)
    ∧ read_legacy_cnames_config env (some lines) cnames
      = (false, cnames ++ (import_legacy_lines "cname=" lines).map CVal.str) := by
  constructor <;>
    simp [read_legacy_dhcp_static_config, read_legacy_cnames_config, hopen, hclose]

/-- Witness for C9: with a failing close, the result is failure but the
matching entry is in the returned model. -/
theorem legacy_import_no_rollback_witness :
    read_legacy_dhcp_static_config exampleLegacyEnvBadClose (some exampleLegacyLines) []
      = (false, [CVal.str "aa:bb:cc:dd:ee:ff,host1"]) := by
  have h := legacy_import_no_rollback exampleLegacyEnvBadClose exampleLegacyLines [] [] rfl rfl
  exact h.1

/-- C4 (amended): the two renders decompose as the same prefix and the same
suffix of lines around the three-line logging block, so every line outside
that block is identical and all subsequent directives keep their line
numbers; the line counts are equal; within the block, the two directive
lines of the disabled render are exactly the enabled directives with a
leading comment marker prepended, while the one remaining affected line is
the explanatory comment whose wording changes from Enable to Disable. -/
theorem logging_toggle_line_stability (conf : Config) (ts : String) (dir : Bool) :
    write_dnsmasq_config_lines (with_logging conf true) ts dir
      = render_pre conf ts
          ++ ["# Enable query logging", "log-queries", "log-async"]
          ++ render_post conf dir
    ∧ write_dnsmasq_config_lines (with_logging conf false) ts dir
      = render_pre conf ts
          ++ ["# Disable query logging", "#log-queries", "#log-async"]
          ++ render_post conf dir
    ∧ (write_dnsmasq_config_lines (with_logging conf true) ts dir).length
      = (write_dnsmasq_config_lines (with_logging conf false) ts dir).length
    ∧ "#log-queries" = "#" ++ "log-queries"
    ∧ "#log-async" = "#" ++ "log-async" := by
  refine ⟨rfl, rfl, ?_, rfl, rfl⟩
  have e1 : write_dnsmasq_config_lines (with_logging conf true) ts dir
      = render_pre conf ts
          ++ ["# Enable query logging", "log-queries", "log-async"]
          ++ render_post conf dir := rfl
  have e2 : write_dnsmasq_config_lines (with_logging conf false) ts dir
      = render_pre conf ts
          ++ ["# Disable query logging", "#log-queries", "#log-async"]
          ++ render_post conf dir := rfl
  rw [e1, e2]
  simp

/-- Counterexample to C4 as stated: at line index 48 of the two renders of a
concrete model, the affected explanatory comment changes its wording, so the
pair differs by more than a leading comment marker. -/
theorem logging_comment_changes_text :
    (write_dnsmasq_config_lines (with_logging exampleConf true) "TS" false).get? 48
        = some "# Enable query logging"
    ∧ (write_dnsmasq_config_lines (with_logging exampleConf false) "TS" false).get? 48
        = some "# Disable query logging"
    ∧ ¬ ("# Disable query logging" = "# Enable query logging"
         ∨ "# Disable query logging" = "#" ++ "# Enable query logging"
         ∨ "# Enable query logging" = "#" ++ "# Disable query logging") := by
  refine ⟨rfl, rfl, by decide⟩

/-- A decimal digit is not scanf whitespace. -/
theorem isDigit_not_ws (c : Char) (h : c.isDigit = true) : isWsChar c = false := by
  cases hw : isWsChar c with
  | false => rfl
  | true =>
      exfalso
      unfold isWsChar at hw
      simp only [Bool.or_eq_true, beq_iff_eq] at hw
      rcases hw with ((((h1 | h1) | h1) | h1) | h1) | h1 <;>
        (rw [h1] at h; exact absurd h (by decide))

/-- A decimal digit is not the minus sign. -/
theorem isDigit_ne_minus (c : Char) (h : c.isDigit = true) : (c == '-') = false := by
  cases hm : (c == '-') with
  | false => rfl
  | true => rw [eq_of_beq hm] at h; exact absurd h (by decide)

/-- A decimal digit is not the plus sign. -/
theorem isDigit_ne_plus (c : Char) (h : c.isDigit = true) : (c == '+') = false := by
  cases hm : (c == '+') with
  | false => rfl
  | true => rw [eq_of_beq hm] at h; exact absurd h (by decide)

/-- The digit scanner consumes a full digit run and stops at a non-digit. -/
theorem take_digits_append (ds : List Char) (post : List Char)
    (hdig : ∀ c ∈ ds, c.isDigit = true)
    (hpost : ∀ c ∈ post.take 1, c.isDigit = false) :
    take_digits (ds ++ post) = (ds, post) := by
  induction ds with
  | nil =>
      cases post with
      | nil => rfl
      | cons c cs =>
          have hc := hpost c (by simp)
          simp only [List.nil_append]
          unfold take_digits
          rw [hc]
          simp
  | cons d rest ih =>
      have hd := hdig d (by simp)
      have ih2 := ih (fun c hc => hdig c (List.mem_cons_of_mem _ hc))
      show take_digits (d :: (rest ++ post)) = _
      unfold take_digits
      rw [hd, ih2]
      simp

/-- The %d conversion on a digit run followed by a non-digit yields the
run's numeric value. -/
theorem scan_int_digits (ds : List Char) (post : List Char)
    (hne : ds ≠ []) (hdig : ∀ c ∈ ds, c.isDigit = true)
    (hpost : ∀ c ∈ post.take 1, c.isDigit = false) :
    scan_int (ds ++ post) = some (decimal_value ds : Int) := by
  cases ds with
  | nil => exact absurd rfl hne
  | cons d rest =>
      have hd := hdig d (by simp)
      have hws : skip_ws ((d :: rest) ++ post) = d :: (rest ++ post) := by
        show List.dropWhile isWsChar (d :: (rest ++ post)) = d :: (rest ++ post)
        rw [List.dropWhile_cons, isDigit_not_ws d hd]
        simp
      have ht : take_digits (d :: (rest ++ post)) = (d :: rest, post) :=
        take_digits_append (d :: rest) post hdig hpost
      unfold scan_int
      rw [hws]
      rw [scan_int_signed]
      rw [isDigit_ne_minus d hd, isDigit_ne_plus d hd]
      simp [ht]

/-- C5 (amended): when the first occurrence of the marker " at line " is
followed by a decimal digit run, get_lineno_from_string returns that run's
value whether or not " of " follows — the trailing " of " of the scan format
cannot influence sscanf's return count, since %d is its last conversion —
and it returns -1 when the marker is absent or no integer follows the first
marker occurrence. -/
theorem get_lineno_marker_then_integer (pre post : String) (ds : List Char)
    (hfirst : strstr (pre ++ " at line " ++ String.mk ds ++ post) " at line "
        = some ((" at line " ++ String.mk ds ++ post) : String).data)
    (hne : ds ≠ []) (hdig : ∀ c ∈ ds, c.isDigit = true)
    (hpost : ∀ c ∈ post.data.take 1, c.isDigit = false) :
    get_lineno_from_string (pre ++ " at line " ++ String.mk ds ++ post)
      = (decimal_value ds : Int)
    ∧ (∀ s : String, strstr s " at line " = none → get_lineno_from_string s = -1)
    ∧ (∀ s : String, ∀ rest : List Char,
        strstr s " at line " = some (" at line ".data ++ rest) →
        scan_int rest = none →
        get_lineno_from_string s = -1) := by
  refine ⟨?_, ?_, ?_⟩
  · unfold get_lineno_from_string
    rw [hfirst]
    have hred : sscanf_at_line_of ((" at line " ++ String.mk ds ++ post) : String).data
        = scan_int (ds ++ post.data) := rfl
    show (match sscanf_at_line_of ((" at line " ++ String.mk ds ++ post) : String).data with
          | some lineno => lineno
          | none => -1) = (decimal_value ds : Int)
    rw [hred, scan_int_digits ds post.data hne hdig hpost]
  · intro s hnone
    unfold get_lineno_from_string
    rw [hnone]
  · intro s rest hsome hscan
    unfold get_lineno_from_string
    rw [hsome]
    have hred2 : sscanf_at_line_of (" at line ".data ++ rest) = scan_int rest := rfl
    show (match sscanf_at_line_of (" at line ".data ++ rest) with
          | some lineno => lineno
          | none => -1) = -1
    rw [hred2, hscan]

/-- Witness for C5: the spec's example diagnostic yields 42, the marker-free
string yields -1, and a first marker occurrence followed by no integer
yields -1. -/
theorem get_lineno_marker_then_integer_witness :
    get_lineno_from_string
        ("dnsmasq: bad option" ++ " at line " ++ String.mk ['4', '2'] ++ " of /tmp/x.conf")
      = 42
    ∧ get_lineno_from_string "no marker here" = -1
    ∧ get_lineno_from_string "bad at line x of y" = -1 := by
  have h := get_lineno_marker_then_integer "dnsmasq: bad option" " of /tmp/x.conf"
    ['4', '2'] (by decide) (by decide) (by decide) (by decide)
  refine ⟨h.1, h.2.1 "no marker here" (by decide), h.2.2 "bad at line x of y" "x of y".data (by decide) (by decide)⟩

/-- Counterexample to C5 as stated: a diagnostic holding the marker and an
integer but no " of " still yields the integer, not the not-found sentinel. -/
theorem get_lineno_without_of_marker :
    get_lineno_from_string "bad option at line 7" = 7
    ∧ strstr "bad option at line 7" " of " = none := by
  refine ⟨by decide, by decide⟩
